import Mathlib

/-!
Shallow embedding of the stateful accumulator core of the `pentair_cloud`
integration (`custom_components/pentair_cloud/sensor.py` and
`binary_sensor.py`), together with theorems settling the spec claims.

Modelling conventions:
* Python floats are modelled as exact rationals (`ℚ`); the additions and
  multiplications the accumulators perform are treated exactly.
* Calendar dates (`datetime.date.today().isoformat()` strings, compared only
  for equality) are modelled as integers (`ℤ`).
* A raw field value (`self.pentair_device.sensor_data.get(key)`) is either
  missing (`None`), present but failing `int(...)` parsing, or an integer.
* Monotonic timestamps (`time.monotonic()`) are rationals.
-/

/-- A raw field value as an accumulator's `update` sees it: absent from the
snapshot, present but unparseable by `int(...)`, or parsed as integer `n`. -/
inductive RawValue where
  | missing
  | unparseable
  | val (n : ℤ)
deriving DecidableEq

/-- A persisted prior sensor value at restore time: absent (`last_data` is
`None` or its `native_value` is `None`), present but failing `float(...)`
parsing, or parsed as `v`. -/
inductive Persisted where
  | absent
  | unparseable
  | val (v : ℚ)
deriving DecidableEq

/-- State of `PentairCumulativeRuntimeSensor`: `_total_seconds`,
`_last_raw_seconds`, `_last_reset_date`. -/
structure RuntimeState where
  total_seconds : ℚ
  last_raw_seconds : Option ℤ
  last_reset_date : ℤ
deriving DecidableEq

/-- `PentairCumulativeRuntimeSensor.update` (sensor.py lines 527-563):
parse the raw counter (missing/unparseable: return with state unchanged),
reset at midnight, establish a baseline on the first reading, otherwise add
the counter delta (or, on counter restart, the new raw value) and update the
baseline. -/
def PentairCumulativeRuntimeSensor.update (s : RuntimeState) (today : ℤ)
    (raw : RawValue) : RuntimeState :=
  match raw with
  | .missing => s
  | .unparseable => s
  | .val current_seconds =>
    if s.last_reset_date ≠ today then
      { total_seconds := 0
        last_reset_date := today
        last_raw_seconds := some current_seconds }
    else
      match s.last_raw_seconds with
      | none => { s with last_raw_seconds := some current_seconds }
      | some last_raw =>
        if current_seconds ≥ last_raw then
          { s with
              total_seconds := s.total_seconds + ((current_seconds : ℚ) - (last_raw : ℚ))
              last_raw_seconds := some current_seconds }
        else
          { s with
              total_seconds := s.total_seconds + (current_seconds : ℚ)
              last_raw_seconds := some current_seconds }

/-- A tick fed to the runtime sensor: current day and raw counter field. -/
structure RuntimeTick where
  today : ℤ
  raw : RawValue
deriving DecidableEq

/-- Run `PentairCumulativeRuntimeSensor.update` over a list of ticks. -/
def runRuntimeTicks (s : RuntimeState) : List RuntimeTick → RuntimeState
  | [] => s
  | t :: ts => runRuntimeTicks (PentairCumulativeRuntimeSensor.update s t.today t.raw) ts

/-- `PentairCumulativeRuntimeSensor.__init__` plus
`PentairCumulativeRuntimeSensor.async_added_to_hass` (lines 463-521), both
running on day `today`: the constructor sets total 0, baseline `None`, reset
date `today`; restore parses the persisted value (`float` failure gives 0.0),
restores `restored * 3600` seconds only when the persisted reset date equals
`today`, and finally clears `_last_raw_seconds`. -/
def PentairCumulativeRuntimeSensor.rehydrate (persisted : Persisted)
    (persisted_reset_date : Option ℤ) (today : ℤ) : RuntimeState :=
  let base : RuntimeState :=
    { total_seconds := 0, last_raw_seconds := none, last_reset_date := today }
  match persisted with
  | .absent => base
  | .unparseable =>
    if persisted_reset_date = some today then
      { base with total_seconds := (0 : ℚ) * 3600 }
    else base
  | .val v =>
    if persisted_reset_date = some today then
      { base with total_seconds := v * 3600 }
    else base

/-- State of `PentairCumulativeGallonsSensor`: `_daily`, `_total_gallons`,
`_last_update_ts`, `_last_reset_date`. -/
structure GallonsState where
  daily : Bool
  total_gallons : ℚ
  last_update_ts : Option ℚ
  last_reset_date : Option ℤ
deriving DecidableEq

/-- `PentairCumulativeGallonsSensor.update` (sensor.py lines 662-705):
first reading establishes the timestamp baseline; elapsed time is capped at
120 s; in daily mode a date change resets the total and returns before
integrating; otherwise a parseable positive flow (tenths of GPM) contributes
`flow_gpm * elapsed_minutes`; the timestamp always advances. -/
def PentairCumulativeGallonsSensor.update (s : GallonsState) (now : ℚ)
    (today : ℤ) (raw : RawValue) : GallonsState :=
  match s.last_update_ts with
  | none => { s with last_update_ts := some now }
  | some last =>
    let elapsed_seconds : ℚ := if now - last > 120 then 120 else now - last
    if s.daily = true ∧ s.last_reset_date ≠ some today then
      { s with
          total_gallons := 0
          last_reset_date := some today
          last_update_ts := some now }
    else
      match raw with
      | .val n =>
        if (n : ℚ) / 10 > 0 then
          { s with
              total_gallons := s.total_gallons + ((n : ℚ) / 10) * (elapsed_seconds / 60)
              last_update_ts := some now }
        else
          { s with last_update_ts := some now }
      | _ => { s with last_update_ts := some now }

/-- A tick fed to the gallons sensor: monotonic time, current day, raw flow
field (`s26`). -/
structure GallonsTick where
  now : ℚ
  today : ℤ
  raw : RawValue
deriving DecidableEq

/-- Run `PentairCumulativeGallonsSensor.update` over a list of ticks. -/
def runGallonsTicks (s : GallonsState) : List GallonsTick → GallonsState
  | [] => s
  | t :: ts => runGallonsTicks (PentairCumulativeGallonsSensor.update s t.now t.today t.raw) ts

/-- The contribution one non-bootstrap, non-reset gallons tick makes to the
total, exactly as the code computes it: elapsed capped at 120 s, and only a
parseable, strictly positive flow integrates `(n/10) * (elapsed/60)`. -/
def gallonsContrib (last now : ℚ) (raw : RawValue) : ℚ :=
  let elapsed_seconds : ℚ := if now - last > 120 then 120 else now - last
  match raw with
  | .val n => if (n : ℚ) / 10 > 0 then ((n : ℚ) / 10) * (elapsed_seconds / 60) else 0
  | _ => 0

/-- Sum of the code's per-tick contributions over a tick list, threading the
timestamp baseline (a `none` baseline makes the next tick bootstrap-only). -/
def codeGallonsSum : Option ℚ → List GallonsTick → ℚ
  | _, [] => 0
  | none, t :: ts => codeGallonsSum (some t.now) ts
  | some last, t :: ts => gallonsContrib last t.now t.raw + codeGallonsSum (some t.now) ts

/-- Modelled from the spec claim's words, for comparison with the code: the
claimed total is the sum over all non-bootstrap ticks of
`rate_i * (elapsed_i / 60)` with `elapsed_i` clamped to at most 120 seconds,
where `rate_i` is the parsed flow rate `n/10` (a tick with no parsed rate
contributes nothing). Unlike the code, this integrates negative rates too. -/
def claimGallonsSum : Option ℚ → List GallonsTick → ℚ
  | _, [] => 0
  | none, t :: ts => claimGallonsSum (some t.now) ts
  | some last, t :: ts =>
    (match t.raw with
     | .val n => ((n : ℚ) / 10) * ((if t.now - last > 120 then (120 : ℚ) else t.now - last) / 60)
     | _ => 0) + claimGallonsSum (some t.now) ts

/-- `PentairCumulativeGallonsSensor.__init__` plus `async_added_to_hass`
(lines 575-647), both running on day `today`: the constructor sets total 0,
timestamp `None`, reset date `today` in daily mode and `None` otherwise;
restore parses the persisted value (`float` failure gives 0.0), restores it
always in lifetime mode and only when the persisted reset date equals
`today` in daily mode, and finally clears `_last_update_ts`. -/
def PentairCumulativeGallonsSensor.rehydrate (daily : Bool) (persisted : Persisted)
    (persisted_reset_date : Option ℤ) (today : ℤ) : GallonsState :=
  let base : GallonsState :=
    { daily := daily
      total_gallons := 0
      last_update_ts := none
      last_reset_date := if daily then some today else none }
  let restored : Option ℚ :=
    match persisted with
    | .absent => none
    | .unparseable => some 0
    | .val v => some v
  match restored with
  | none => base
  | some r =>
    if daily then
      if persisted_reset_date = some today then { base with total_gallons := r } else base
    else
      { base with total_gallons := r }

/-- State of `PentairDailyRuntimeSensor`: `_total_hours`, `_last_update_ts`,
`_last_reset_date`. -/
structure DailyRuntimeState where
  total_hours : ℚ
  last_update_ts : Option ℚ
  last_reset_date : ℤ
deriving DecidableEq

/-- `PentairDailyRuntimeSensor._is_active` (lines 414-422): the monitored
field is active when it parses as an integer greater than zero. -/
def PentairDailyRuntimeSensor.isActive (raw : RawValue) : Bool :=
  match raw with
  | .val n => decide (n > 0)
  | _ => false

/-- `PentairDailyRuntimeSensor.update` (lines 424-450): first tick records
the baseline only; elapsed is capped at 120 s; a date change zeroes the total
(and the same tick may then still accumulate); if active, add
`elapsed / 3600` hours; the timestamp always advances. -/
def PentairDailyRuntimeSensor.update (s : DailyRuntimeState) (now : ℚ)
    (today : ℤ) (raw : RawValue) : DailyRuntimeState :=
  match s.last_update_ts with
  | none => { s with last_update_ts := some now }
  | some last =>
    let elapsed : ℚ := if now - last > 120 then 120 else now - last
    let s1 : DailyRuntimeState :=
      if s.last_reset_date ≠ today then
        { s with total_hours := 0, last_reset_date := today }
      else s
    let s2 : DailyRuntimeState :=
      if PentairDailyRuntimeSensor.isActive raw then
        { s1 with total_hours := s1.total_hours + elapsed / 3600 }
      else s1
    { s2 with last_update_ts := some now }

/-- A tick fed to the daily runtime sensor. -/
structure DailyRuntimeTick where
  now : ℚ
  today : ℤ
  raw : RawValue
deriving DecidableEq

/-- Run `PentairDailyRuntimeSensor.update` over a list of ticks. -/
def runDailyTicks (s : DailyRuntimeState) : List DailyRuntimeTick → DailyRuntimeState
  | [] => s
  | t :: ts => runDailyTicks (PentairDailyRuntimeSensor.update s t.now t.today t.raw) ts

/-- `PentairDailyRuntimeSensor.__init__` plus `async_added_to_hass`
(lines 350-408), both running on day `today`: total 0 and reset date `today`
at construction; restore parses the persisted value (`float` failure gives
0.0) and keeps it only when the persisted reset date equals `today`;
`_last_update_ts` is cleared. -/
def PentairDailyRuntimeSensor.rehydrate (persisted : Persisted)
    (persisted_reset_date : Option ℤ) (today : ℤ) : DailyRuntimeState :=
  let base : DailyRuntimeState :=
    { total_hours := 0, last_update_ts := none, last_reset_date := today }
  match persisted with
  | .absent => base
  | .unparseable =>
    if persisted_reset_date = some today then { base with total_hours := 0 } else base
  | .val v =>
    if persisted_reset_date = some today then { base with total_hours := v } else base

/-- `PentairPoolTurnoverSensor.native_value` (sensor.py lines 318-334), with
the host glue (entry-data lookup) stripped: `None` when the configured pool
size is not positive, else the percentage of the pool cycled today. -/
def PentairPoolTurnoverSensor.native_value (daily_gallons pool_size : ℚ) : Option ℚ :=
  if pool_size ≤ 0 then none else some ((daily_gallons / pool_size) * 100)

/-- `PentairTurnoverTargetBinarySensor.is_on` (binary_sensor.py lines 78-81):
the daily volume has reached pool size times the target turnover count. -/
def PentairTurnoverTargetBinarySensor.is_on (daily_gallons pool_size target_turnovers : ℚ) : Bool :=
  decide (daily_gallons ≥ pool_size * target_turnovers)

/-! ## Helper lemmas about a single gallons tick -/

/-- A bootstrap gallons tick (no timestamp baseline) only records the
timestamp. -/
theorem gallonsUpdate_bootstrap (s : GallonsState) (now : ℚ) (today : ℤ)
    (raw : RawValue) (h : s.last_update_ts = none) :
    PentairCumulativeGallonsSensor.update s now today raw =
      { s with last_update_ts := some now } := by
  rcases s with ⟨d, tg, ts0, rd⟩
  simp only at h
  subst h
  rfl

/-- A non-bootstrap gallons tick that does not trigger the daily reset adds
exactly `gallonsContrib` to the total and advances the timestamp. -/
theorem gallonsUpdate_noreset (s : GallonsState) (now last : ℚ) (today : ℤ)
    (raw : RawValue) (hts : s.last_update_ts = some last)
    (hnr : ¬(s.daily = true ∧ s.last_reset_date ≠ some today)) :
    PentairCumulativeGallonsSensor.update s now today raw =
      { s with
          total_gallons := s.total_gallons + gallonsContrib last now raw
          last_update_ts := some now } := by
  rcases s with ⟨d, tg, ts0, rd⟩
  simp only at hts
  subst hts
  simp only [PentairCumulativeGallonsSensor.update, gallonsContrib]
  rw [if_neg hnr]
  cases raw with
  | val n =>
    by_cases hpos : (n : ℚ) / 10 > 0 <;>
      by_cases hel : now - last > 120 <;>
        simp [hpos, hel]
  | missing => simp
  | unparseable => simp

/-! ## Claim theorems -/

/-- C6: the Turnover Ratio Calculator returns `none` exactly when the pool
capacity is not positive, and otherwise returns the unrounded percentage
`(daily_volume / capacity) * 100`; the target-met predicate holds exactly
when `daily_volume` is at least `capacity * target_multiplier`. Concretely,
`compute(5000, 20000, 1.0) = 25.0`, `compute(5000, 0, 1.0)` is absent,
`target_met(20000, 20000, 1.0)` is true and `target_met(19999, 20000, 1.0)`
is false. -/
theorem claim_C6 :
    (∀ g c : ℚ, PentairPoolTurnoverSensor.native_value g c = none ↔ c ≤ 0) ∧
    (∀ g c : ℚ, 0 < c →
      PentairPoolTurnoverSensor.native_value g c = some ((g / c) * 100)) ∧
    (∀ g c t : ℚ, PentairTurnoverTargetBinarySensor.is_on g c t = true ↔ g ≥ c * t) ∧
    PentairPoolTurnoverSensor.native_value 5000 20000 = some 25 ∧
    PentairPoolTurnoverSensor.native_value 5000 0 = none ∧
    PentairTurnoverTargetBinarySensor.is_on 20000 20000 1 = true ∧
    PentairTurnoverTargetBinarySensor.is_on 19999 20000 1 = false := by
  refine ⟨?_, ?_, ?_, ?_, ?_, ?_, ?_⟩
  · intro g c
    unfold PentairPoolTurnoverSensor.native_value
    split_ifs with h <;> simp [h]
  · intro g c hc
    unfold PentairPoolTurnoverSensor.native_value
    rw [if_neg (by linarith)]
  · intro g c t
    simp [PentairTurnoverTargetBinarySensor.is_on]
  · norm_num [PentairPoolTurnoverSensor.native_value]
  · norm_num [PentairPoolTurnoverSensor.native_value]
  · norm_num [PentairTurnoverTargetBinarySensor.is_on]
  · norm_num [PentairTurnoverTargetBinarySensor.is_on]

/-- C6 witness: the positive-capacity branch of `claim_C6` instantiated at
daily volume 5000 and capacity 20000. -/
theorem claim_C6_witness :
    PentairPoolTurnoverSensor.native_value 5000 20000 = some (((5000 : ℚ) / 20000) * 100) :=
  claim_C6.2.1 5000 20000 (by norm_num)

/-- C5: the Restore/Rehydrate policy restores a parseable persisted value for
a daily metric exactly when the persisted reset date equals today (otherwise
the total starts at 0 and the reset date becomes today); a lifetime (non-daily)
gallons metric restores the persisted value verbatim regardless of date; and
rehydration always clears the tick baseline (`_last_raw_seconds` resp.
`_last_update_ts`), so the next tick is bootstrap-only. -/
theorem claim_C5 :
    (∀ (v : ℚ) (pd : Option ℤ) (today : ℤ),
      (PentairCumulativeGallonsSensor.rehydrate true (.val v) pd today).total_gallons =
        if pd = some today then v else 0) ∧
    (∀ (v : ℚ) (pd : Option ℤ) (today : ℤ),
      (PentairCumulativeGallonsSensor.rehydrate false (.val v) pd today).total_gallons = v) ∧
    (∀ (d : Bool) (p : Persisted) (pd : Option ℤ) (today : ℤ),
      (PentairCumulativeGallonsSensor.rehydrate d p pd today).last_update_ts = none) ∧
    (∀ (p : Persisted) (pd : Option ℤ) (today : ℤ),
      (PentairCumulativeGallonsSensor.rehydrate true p pd today).last_reset_date = some today) ∧
    (∀ (v : ℚ) (pd : Option ℤ) (today : ℤ),
      (PentairCumulativeRuntimeSensor.rehydrate (.val v) pd today).total_seconds =
        if pd = some today then v * 3600 else 0) ∧
    (∀ (p : Persisted) (pd : Option ℤ) (today : ℤ),
      (PentairCumulativeRuntimeSensor.rehydrate p pd today).last_raw_seconds = none) ∧
    (∀ (v : ℚ) (pd : Option ℤ) (today : ℤ),
      (PentairDailyRuntimeSensor.rehydrate (.val v) pd today).total_hours =
        if pd = some today then v else 0) ∧
    (∀ (p : Persisted) (pd : Option ℤ) (today : ℤ),
      (PentairDailyRuntimeSensor.rehydrate p pd today).last_update_ts = none) := by
  refine ⟨?_, ?_, ?_, ?_, ?_, ?_, ?_, ?_⟩
  · intro v pd today
    unfold PentairCumulativeGallonsSensor.rehydrate
    split_ifs <;> simp_all
  · intro v pd today
    rfl
  · intro d p pd today
    unfold PentairCumulativeGallonsSensor.rehydrate
    cases p <;> split_ifs <;> rfl
  · intro p pd today
    unfold PentairCumulativeGallonsSensor.rehydrate
    cases p <;> split_ifs <;> simp_all
  · intro v pd today
    unfold PentairCumulativeRuntimeSensor.rehydrate
    split_ifs <;> rfl
  · intro p pd today
    unfold PentairCumulativeRuntimeSensor.rehydrate
    cases p <;> split_ifs <;> rfl
  · intro v pd today
    unfold PentairDailyRuntimeSensor.rehydrate
    split_ifs <;> rfl
  · intro p pd today
    unfold PentairDailyRuntimeSensor.rehydrate
    cases p <;> split_ifs <;> rfl

/-- C9: a persisted prior value that is present but not parseable as a number
is silently treated as 0.0 during rehydration: for every persisted reset date
and every restore-capable sensor class, rehydration completes with an initial
total of 0. -/
theorem claim_C9 :
    ∀ (pd : Option ℤ) (today : ℤ) (d : Bool),
      (PentairCumulativeGallonsSensor.rehydrate d .unparseable pd today).total_gallons = 0 ∧
      (PentairCumulativeRuntimeSensor.rehydrate .unparseable pd today).total_seconds = 0 ∧
      (PentairDailyRuntimeSensor.rehydrate .unparseable pd today).total_hours = 0 := by
  intro pd today d
  refine ⟨?_, ?_, ?_⟩
  · unfold PentairCumulativeGallonsSensor.rehydrate
    cases d <;> split_ifs <;> simp_all
  · unfold PentairCumulativeRuntimeSensor.rehydrate
    split_ifs <;> norm_num
  · unfold PentairDailyRuntimeSensor.rehydrate
    split_ifs <;> rfl

/-- C1: for the Counter-Delta Tracker, on every same-day tick where a baseline
exists and the counter parses: a counter at least the baseline adds the
difference, a smaller counter adds the new raw value itself, and the baseline
becomes the new raw value in both cases. Fed `[100, 150, 225]` with no day
change the total after three ticks is 125 seconds, and fed `[300, 50]` on the
same day the second tick adds 50. -/
theorem claim_C1 :
    (∀ (s : RuntimeState) (today : ℤ) (n b : ℤ),
      s.last_reset_date = today → s.last_raw_seconds = some b →
      ((n ≥ b → (PentairCumulativeRuntimeSensor.update s today (.val n)).total_seconds =
          s.total_seconds + ((n : ℚ) - (b : ℚ))) ∧
       (¬ n ≥ b → (PentairCumulativeRuntimeSensor.update s today (.val n)).total_seconds =
          s.total_seconds + (n : ℚ)) ∧
       (PentairCumulativeRuntimeSensor.update s today (.val n)).last_raw_seconds = some n)) ∧
    (runRuntimeTicks ⟨0, none, 0⟩
      [⟨0, .val 100⟩, ⟨0, .val 150⟩, ⟨0, .val 225⟩]).total_seconds = 125 ∧
    (runRuntimeTicks ⟨0, none, 0⟩ [⟨0, .val 300⟩, ⟨0, .val 50⟩]).total_seconds =
      (runRuntimeTicks ⟨0, none, 0⟩ [⟨0, .val 300⟩]).total_seconds + 50 := by
  refine ⟨?_, ?_, ?_⟩
  · intro s today n b h1 h2
    rcases s with ⟨tot, lraw, rd⟩
    simp only at h1 h2
    subst h1
    subst h2
    refine ⟨?_, ?_, ?_⟩
    · intro hge
      simp [PentairCumulativeRuntimeSensor.update, hge]
    · intro hlt
      simp [PentairCumulativeRuntimeSensor.update, hlt]
    · by_cases hge : n ≥ b <;>
        simp [PentairCumulativeRuntimeSensor.update, hge]
  · norm_num [runRuntimeTicks, PentairCumulativeRuntimeSensor.update]
  · norm_num [runRuntimeTicks, PentairCumulativeRuntimeSensor.update]

/-- C1 witness: the general tick rule of `claim_C1` instantiated at a state
with total 0, baseline 100, reset date 0 and a same-day counter reading 150. -/
theorem claim_C1_witness :
    (PentairCumulativeRuntimeSensor.update ⟨0, some 100, 0⟩ 0 (.val 150)).total_seconds =
      (⟨0, some 100, 0⟩ : RuntimeState).total_seconds + (((150 : ℤ) : ℚ) - ((100 : ℤ) : ℚ)) :=
  (claim_C1.1 ⟨0, some 100, 0⟩ 0 150 100 rfl rfl).1 (by decide)

/-- C2 counterexample: the claim quantifies over arbitrary integer raw-counter
inputs including negative ones, but at baseline 100 a same-day reading of -50
makes the Counter-Delta Tracker add the new raw value -50, so the total
strictly decreases and goes negative. -/
theorem claim_C2_counterexample :
    (PentairCumulativeRuntimeSensor.update ⟨0, some 100, 0⟩ 0 (.val (-50))).total_seconds <
      (⟨0, some 100, 0⟩ : RuntimeState).total_seconds ∧
    (PentairCumulativeRuntimeSensor.update ⟨0, some 100, 0⟩ 0 (.val (-50))).total_seconds < 0 := by
  norm_num [PentairCumulativeRuntimeSensor.update]

/-- C2 (amended): restricted to non-negative raw-counter inputs, every tick of
the Counter-Delta Tracker that does not start a new calendar-day epoch leaves
the running total greater than or equal to its previous value, and a
non-negative total stays non-negative. (As frozen, the claim also covered
negative raw counters, where the code adds the negative raw value and the
total can decrease and go negative; see the counterexample.) -/
theorem claim_C2 :
    ∀ (s : RuntimeState) (today : ℤ) (raw : RawValue),
      s.last_reset_date = today →
      (∀ n : ℤ, raw = RawValue.val n → 0 ≤ n) →
      s.total_seconds ≤ (PentairCumulativeRuntimeSensor.update s today raw).total_seconds ∧
      (0 ≤ s.total_seconds →
        0 ≤ (PentairCumulativeRuntimeSensor.update s today raw).total_seconds) := by
  intro s today raw h1 h2
  have key : s.total_seconds ≤ (PentairCumulativeRuntimeSensor.update s today raw).total_seconds := by
    cases raw with
    | missing => exact le_refl _
    | unparseable => exact le_refl _
    | val n =>
      have hn : (0 : ℤ) ≤ n := h2 n rfl
      have hnq : (0 : ℚ) ≤ (n : ℚ) := by exact_mod_cast hn
      rcases s with ⟨tot, lraw, rd⟩
      simp only at h1
      subst h1
      cases lraw with
      | none => simp [PentairCumulativeRuntimeSensor.update]
      | some b =>
        by_cases hge : n ≥ b
        · have hbq : (b : ℚ) ≤ (n : ℚ) := by exact_mod_cast hge
          simp [PentairCumulativeRuntimeSensor.update, hge]
        · simp [PentairCumulativeRuntimeSensor.update, hge]
          linarith
  exact ⟨key, fun h0 => le_trans h0 key⟩

/-- C2 witness: `claim_C2` instantiated at a state with total 0, baseline 100,
reset date 0 and a same-day non-negative counter reading 150. -/
theorem claim_C2_witness :
    (⟨0, some 100, 0⟩ : RuntimeState).total_seconds ≤
      (PentairCumulativeRuntimeSensor.update ⟨0, some 100, 0⟩ 0 (.val 150)).total_seconds :=
  (claim_C2 ⟨0, some 100, 0⟩ 0 (.val 150) rfl (by intro n hn; cases hn; decide)).1

/-- C7: for the Active-Duration Tracker, on every non-bootstrap same-day tick,
an active field adds `elapsed / 3600` hours to the total with `elapsed`
clamped to 120 seconds, and an inactive field adds nothing; three active
ticks 60 seconds apart starting from bootstrap yield `120 / 3600` hours. -/
theorem claim_C7 :
    (∀ (s : DailyRuntimeState) (now : ℚ) (today : ℤ) (raw : RawValue) (last : ℚ),
      s.last_update_ts = some last → s.last_reset_date = today →
      ((PentairDailyRuntimeSensor.isActive raw = true →
        (PentairDailyRuntimeSensor.update s now today raw).total_hours =
          s.total_hours + (if now - last > 120 then (120 : ℚ) else now - last) / 3600) ∧
       (PentairDailyRuntimeSensor.isActive raw = false →
        (PentairDailyRuntimeSensor.update s now today raw).total_hours = s.total_hours))) ∧
    (runDailyTicks ⟨0, none, 0⟩
      [⟨0, 0, .val 1⟩, ⟨60, 0, .val 1⟩, ⟨120, 0, .val 1⟩]).total_hours = 120 / 3600 := by
  constructor
  · intro s now today raw last hts hrd
    rcases s with ⟨th, ts0, rd⟩
    simp only at hts hrd
    subst hts
    subst hrd
    constructor
    · intro hact
      simp [PentairDailyRuntimeSensor.update, hact]
    · intro hact
      simp [PentairDailyRuntimeSensor.update, hact]
  · norm_num [runDailyTicks, PentairDailyRuntimeSensor.update,
      PentairDailyRuntimeSensor.isActive]

/-- C7 witness: the general rule of `claim_C7` instantiated at a state with
total 0, last tick at 0, reset date 0, an active reading, and a tick at 60. -/
theorem claim_C7_witness :
    (PentairDailyRuntimeSensor.update ⟨0, some 0, 0⟩ 60 0 (.val 1)).total_hours =
      (⟨0, some 0, 0⟩ : DailyRuntimeState).total_hours +
        (if (60 : ℚ) - 0 > 120 then (120 : ℚ) else 60 - 0) / 3600 :=
  (claim_C7.1 ⟨0, some 0, 0⟩ 60 0 (.val 1) 0 rfl rfl).1 rfl

/-- C3 counterexample: after a bootstrap tick, a tick whose raw flow parses to
the negative rate -60 GPM contributes nothing in the code (the positivity
guard skips it), while the claimed formula sums `rate * elapsed / 60 = -60`;
so the accumulated total differs from the claimed sum. -/
theorem claim_C3_counterexample :
    (runGallonsTicks ⟨true, 0, none, some 0⟩
        [⟨0, 0, .val 100⟩, ⟨60, 0, .val (-600)⟩]).total_gallons ≠
      (⟨true, 0, none, some 0⟩ : GallonsState).total_gallons +
        claimGallonsSum (⟨true, 0, none, some 0⟩ : GallonsState).last_update_ts
          [⟨0, 0, .val 100⟩, ⟨60, 0, .val (-600)⟩] := by
  norm_num [runGallonsTicks, PentairCumulativeGallonsSensor.update, claimGallonsSum]

/-- C3 (amended): for every sequence of ticks within one calendar day, the
Rate Integrator total equals the sum over all non-bootstrap ticks with a
strictly positive parsed rate of `rate_i * (elapsed_i / 60)`, each
`elapsed_i` clamped to at most 120 seconds; ticks whose parsed rate is zero
or negative, or whose raw field is missing or unparseable, contribute
nothing, and an over-120-second gap is capped rather than raising. (As
frozen, the claim summed `rate_i * elapsed_i / 60` over all non-bootstrap
ticks, which the positivity guard in the code falsifies for negative rates;
see the counterexample.) -/
theorem claim_C3 :
    ∀ (ticks : List GallonsTick) (s : GallonsState),
      (∀ t ∈ ticks, s.daily = true → s.last_reset_date = some t.today) →
      (runGallonsTicks s ticks).total_gallons =
        s.total_gallons + codeGallonsSum s.last_update_ts ticks := by
  intro ticks
  induction ticks with
  | nil =>
    intro s _
    simp [runGallonsTicks, codeGallonsSum]
  | cons t ts ih =>
    intro s h
    have ht := h t (List.mem_cons_self t ts)
    have hrest : ∀ u ∈ ts, s.daily = true → s.last_reset_date = some u.today :=
      fun u hu => h u (List.mem_cons_of_mem t hu)
    cases hts : s.last_update_ts with
    | none =>
      rw [runGallonsTicks, gallonsUpdate_bootstrap s t.now t.today t.raw hts,
        ih { s with last_update_ts := some t.now } hrest]
      simp [codeGallonsSum, hts]
    | some last =>
      have hnr : ¬(s.daily = true ∧ s.last_reset_date ≠ some t.today) := by
        intro hcon
        exact hcon.2 (ht hcon.1)
      rw [runGallonsTicks, gallonsUpdate_noreset s t.now last t.today t.raw hts hnr,
        ih { s with
              total_gallons := s.total_gallons + gallonsContrib last t.now t.raw
              last_update_ts := some t.now } hrest]
      simp [codeGallonsSum, hts]
      ring

/-- C3 witness: `claim_C3` instantiated at a fresh daily sensor fed a
bootstrap tick and one positive-rate tick 60 seconds later, on one day. -/
theorem claim_C3_witness :
    (runGallonsTicks ⟨true, 0, none, some 0⟩
        [⟨0, 0, .val 100⟩, ⟨60, 0, .val 600⟩]).total_gallons =
      (⟨true, 0, none, some 0⟩ : GallonsState).total_gallons +
        codeGallonsSum (⟨true, 0, none, some 0⟩ : GallonsState).last_update_ts
          [⟨0, 0, .val 100⟩, ⟨60, 0, .val 600⟩] :=
  claim_C3 [⟨0, 0, .val 100⟩, ⟨60, 0, .val 600⟩] ⟨true, 0, none, some 0⟩ (by decide)

/-- C4: a non-bootstrap tick of a daily Rate Integrator whose stored reset
date differs from today resets the total to 0 and records the new reset date,
and that tick integrates nothing regardless of the raw flow value; a sensor
that accumulated 10.0 gallons and is then ticked one day later holds 0, not
10 plus a new delta. -/
theorem claim_C4 :
    (∀ (s : GallonsState) (now last : ℚ) (today : ℤ) (raw : RawValue),
      s.daily = true → s.last_update_ts = some last → s.last_reset_date ≠ some today →
      PentairCumulativeGallonsSensor.update s now today raw =
        { s with
            total_gallons := 0
            last_reset_date := some today
            last_update_ts := some now }) ∧
    (PentairCumulativeGallonsSensor.update ⟨true, 10, some 0, some 0⟩ 60 1
      (.val 100)).total_gallons = 0 := by
  constructor
  · intro s now last today raw hd hts hne
    rcases s with ⟨d, tg, ts0, rd⟩
    simp only at hd hts hne
    subst hd
    subst hts
    simp only [PentairCumulativeGallonsSensor.update]
    rw [if_pos ⟨by trivial, hne⟩]
  · norm_num [PentairCumulativeGallonsSensor.update]

/-- C4 witness: the general part of `claim_C4` at a daily sensor with total
10, last tick at 0, reset date 0, ticked at 60 on day 1 with flow 100. -/
theorem claim_C4_witness :
    PentairCumulativeGallonsSensor.update ⟨true, 10, some 0, some 0⟩ 60 1 (.val 100) =
      { (⟨true, 10, some 0, some 0⟩ : GallonsState) with
          total_gallons := 0
          last_reset_date := some 1
          last_update_ts := some 60 } :=
  claim_C4.1 ⟨true, 10, some 0, some 0⟩ 60 0 1 (.val 100) rfl rfl (by decide)

/-- C8 counterexample: the claim says a missing raw field leaves the Rate
Integrator's entire state unchanged, but at a state with last tick 100 a tick
at monotonic time 160 with a missing flow field advances the last-tick
timestamp to 160 (while the total is indeed unchanged). -/
theorem claim_C8_counterexample :
    (PentairCumulativeGallonsSensor.update ⟨true, 5, some 100, some 0⟩ 160 0
        .missing).last_update_ts ≠
      (⟨true, 5, some 100, some 0⟩ : GallonsState).last_update_ts ∧
    (PentairCumulativeGallonsSensor.update ⟨true, 5, some 100, some 0⟩ 160 0
        .missing).total_gallons =
      (⟨true, 5, some 100, some 0⟩ : GallonsState).total_gallons := by
  norm_num [PentairCumulativeGallonsSensor.update]

/-- C8 (amended): a tick with a missing or unparseable raw field raises no
fault and adds no new data: the Counter-Delta Tracker leaves its entire state
unchanged, and the Rate Integrator on a non-bootstrap, non-reset tick leaves
its total, reset date and daily flag unchanged while its last-tick timestamp
advances to now. (As frozen, the claim asserted the Rate Integrator's
last-tick timestamp is also unchanged, which the code falsifies; see the
counterexample.) -/
theorem claim_C8 :
    (∀ (s : RuntimeState) (today : ℤ),
      PentairCumulativeRuntimeSensor.update s today .missing = s ∧
      PentairCumulativeRuntimeSensor.update s today .unparseable = s) ∧
    (∀ (s : GallonsState) (now last : ℚ) (today : ℤ) (raw : RawValue),
      (raw = RawValue.missing ∨ raw = RawValue.unparseable) →
      s.last_update_ts = some last →
      ¬(s.daily = true ∧ s.last_reset_date ≠ some today) →
      (PentairCumulativeGallonsSensor.update s now today raw).total_gallons = s.total_gallons ∧
      (PentairCumulativeGallonsSensor.update s now today raw).last_reset_date =
        s.last_reset_date ∧
      (PentairCumulativeGallonsSensor.update s now today raw).daily = s.daily ∧
      (PentairCumulativeGallonsSensor.update s now today raw).last_update_ts = some now) := by
  constructor
  · intro s today
    exact ⟨rfl, rfl⟩
  · intro s now last today raw hraw hts hnr
    rw [gallonsUpdate_noreset s now last today raw hts hnr]
    refine ⟨?_, rfl, rfl, rfl⟩
    rcases hraw with h | h <;> subst h <;> simp [gallonsContrib]

/-- C8 witness: `claim_C8` applied to a runtime state with a missing field
and to a lifetime gallons state ticked at 160 with a missing flow field. -/
theorem claim_C8_witness :
    PentairCumulativeRuntimeSensor.update ⟨7, some 3, 0⟩ 0 .missing = ⟨7, some 3, 0⟩ ∧
    (PentairCumulativeGallonsSensor.update ⟨false, 5, some 100, none⟩ 160 0
        .missing).total_gallons =
      (⟨false, 5, some 100, none⟩ : GallonsState).total_gallons :=
  ⟨(claim_C8.1 ⟨7, some 3, 0⟩ 0).1,
   (claim_C8.2 ⟨false, 5, some 100, none⟩ 160 100 0 .missing (Or.inl rfl) rfl (by decide)).1⟩

/-- C10: on every non-bootstrap, non-reset tick of the gallons Rate
Integrator with a monotonic clock, the total never decreases; a tick whose
parsed flow is zero or negative leaves the total unchanged while the
timestamp still advances; and the total changes only when the raw field
parses to a strictly positive flow. -/
theorem claim_C10 :
    ∀ (s : GallonsState) (now last : ℚ) (today : ℤ) (raw : RawValue),
      s.last_update_ts = some last → last ≤ now →
      ¬(s.daily = true ∧ s.last_reset_date ≠ some today) →
      (s.total_gallons ≤ (PentairCumulativeGallonsSensor.update s now today raw).total_gallons) ∧
      (∀ n : ℤ, raw = RawValue.val n → n ≤ 0 →
        (PentairCumulativeGallonsSensor.update s now today raw).total_gallons =
          s.total_gallons ∧
        (PentairCumulativeGallonsSensor.update s now today raw).last_update_ts = some now) ∧
      ((PentairCumulativeGallonsSensor.update s now today raw).total_gallons ≠
          s.total_gallons →
        ∃ n : ℤ, raw = RawValue.val n ∧ 0 < n) := by
  intro s now last today raw hts hmono hnr
  rw [gallonsUpdate_noreset s now last today raw hts hnr]
  have hel : (0 : ℚ) ≤ (if now - last > 120 then (120 : ℚ) else now - last) := by
    split_ifs with h
    · norm_num
    · linarith
  refine ⟨?_, ?_, ?_⟩
  · have hcontrib : 0 ≤ gallonsContrib last now raw := by
      cases raw with
      | val n =>
        show (0 : ℚ) ≤
          if (n : ℚ) / 10 > 0 then
            ((n : ℚ) / 10) * ((if now - last > 120 then (120 : ℚ) else now - last) / 60)
          else 0
        split_ifs with hpos hgap
        · exact mul_nonneg (le_of_lt hpos) (by norm_num)
        · have hd : (0 : ℚ) ≤ now - last := by linarith
          exact mul_nonneg (le_of_lt hpos) (div_nonneg hd (by norm_num))
        · exact le_refl (0 : ℚ)
      | missing => exact le_refl (0 : ℚ)
      | unparseable => exact le_refl (0 : ℚ)
    exact le_add_of_nonneg_right hcontrib
  · intro n hn hle
    subst hn
    have hq : (n : ℚ) ≤ 0 := by exact_mod_cast hle
    have hnpos : ¬((n : ℚ) / 10 > 0) := by
      intro hpos
      have h10 : (0 : ℚ) < 10 := by norm_num
      have := mul_pos hpos h10
      rw [div_mul_cancel₀ _ (by norm_num : (10 : ℚ) ≠ 0)] at this
      linarith
    refine ⟨?_, rfl⟩
    simp [gallonsContrib, hnpos]
  · intro hne
    cases raw with
    | val n =>
      by_cases hpos : (n : ℚ) / 10 > 0
      · refine ⟨n, rfl, ?_⟩
        have h10 : (0 : ℚ) < 10 := by norm_num
        have := mul_pos hpos h10
        rw [div_mul_cancel₀ _ (by norm_num : (10 : ℚ) ≠ 0)] at this
        exact_mod_cast this
      · exfalso
        apply hne
        simp [gallonsContrib, hpos]
    | missing =>
      exfalso
      apply hne
      simp [gallonsContrib]
    | unparseable =>
      exfalso
      apply hne
      simp [gallonsContrib]

/-- C10 witness: `claim_C10` at a lifetime sensor with total 5, last tick
100, ticked at 160 with a parsed flow of 0. -/
theorem claim_C10_witness :
    (⟨false, 5, some 100, none⟩ : GallonsState).total_gallons ≤
      (PentairCumulativeGallonsSensor.update ⟨false, 5, some 100, none⟩ 160 0
        (.val 0)).total_gallons :=
  (claim_C10 ⟨false, 5, some 100, none⟩ 160 100 0 (.val 0) rfl (by norm_num) (by decide)).1
